import Mathlib

/-!
# Verification of the Tor_Tech_HR resilient API client (`src/lib/api.js`)

Shallow embedding of the client-side API layer of the repository:

* JavaScript values and objects are modelled by `JsVal` / `JsObj`
  (insertion-ordered association lists, as JS objects are).
* The axios error taxonomy relevant to the retry logic is `ApiError`;
  the retry combinator `apiCallWithRetry` is modelled together with an
  observable trace of attempts and delays (`RetryTrace`).
* `localStorage` is an association list of string slots (`Storage`); the
  request interceptor, the login handler and the logout handler are the
  only operations in the source that touch it.
* The payload transforms of `createOKR` / `updateOKR` are translated
  field by field from `src/lib/api.js`.
-/

namespace TorTechHR

/-- JavaScript runtime values, as far as the API client manipulates them.
Numbers are modelled as integers (no float arithmetic occurs in the
transforms under study). -/
inductive JsVal where
  | undefined
  | null
  | bool (b : Bool)
  | num (n : Int)
  | str (s : String)
  | arr (xs : List JsVal)
  | obj (fields : List (String × JsVal))

/-- A JavaScript object: an insertion-ordered association list of
properties, as a JS engine maintains string-keyed properties. -/
abbrev JsObj := List (String × JsVal)

/-- First-match lookup in an association list (property read). -/
def lookupKey {β : Type} : List (String × β) → String → Option β
  | [], _ => none
  | (k', v) :: rest, k => if k' = k then some v else lookupKey rest k

/-- Property write: overwrite the existing property in place, or append a
fresh one at the end — the semantics of `obj[k] = v` / an object-literal
key on a JS object. -/
def setKey {β : Type} : List (String × β) → String → β → List (String × β)
  | [], k, v => [(k, v)]
  | (k', v') :: rest, k, v =>
      if k' = k then (k, v) :: rest else (k', v') :: setKey rest k v

/-- Property deletion (`delete obj[k]`). -/
def delKey {β : Type} (o : List (String × β)) (k : String) : List (String × β) :=
  o.filter fun kv => decide (kv.1 ≠ k)

/-- Does the object have the property at all? -/
def hasKey {β : Type} (o : List (String × β)) (k : String) : Bool :=
  (lookupKey o k).isSome

/-- Property access `obj.k`: `undefined` when the property is missing. -/
def getKey (o : JsObj) (k : String) : JsVal :=
  (lookupKey o k).getD .undefined

/-- JS truthiness. (`NaN` does not arise in the embedded code.) -/
def truthy : JsVal → Bool
  | .undefined => false
  | .null => false
  | .bool b => b
  | .num n => n != 0
  | .str s => s ≠ ""
  | .arr _ => true
  | .obj _ => true

/-- JS `a || b`: the left operand when truthy, else the right. -/
def jsOr (a b : JsVal) : JsVal :=
  if truthy a then a else b

/-- Whether a property of the transformed object survives JSON
serialization: `JSON.stringify` (used by axios for the request body)
drops properties whose value is `undefined`, so a key is on the wire iff
it is present with a non-`undefined` value. -/
def wireHas (o : JsObj) (k : String) : Bool :=
  match getKey o k with
  | .undefined => false
  | _ => true

/-! ## Error taxonomy and the retry combinator (`apiCallWithRetry`) -/

/-- The axios error shapes the client code distinguishes, keyed by the
`error.code` string it inspects:
* `network` — `error.code === 'ERR_NETWORK'` (network unreachable);
* `timeout` — `error.code === 'ECONNABORTED'` (request timed out);
* `httpStatus code` — the server answered with a non-2xx status
  (axios sets a code such as `ERR_BAD_REQUEST`, which is neither of the
  two strings above);
* `requestSetup` — an error thrown while constructing the request
  (`error.code` absent, i.e. falsy). -/
inductive ApiError where
  | network
  | timeout
  | httpStatus (code : Nat)
  | requestSetup
deriving DecidableEq

/-- The retry condition of `apiCallWithRetry` (src/lib/api.js line 73):
`error.code` is present and is `'ERR_NETWORK'` or `'ECONNABORTED'`. -/
def isTransient : ApiError → Bool
  | .network => true
  | .timeout => true
  | .httpStatus _ => false
  | .requestSetup => false

/-- Observable behaviour of one run of `apiCallWithRetry`: how many times
the wrapped call was invoked, which `setTimeout` delays (in ms, in order)
were awaited, and the value returned / error thrown.  `Except.error none`
models the degenerate `throw lastError` with `lastError` still
`undefined`, reachable only with `retryCount = 0` (never used). -/
structure RetryTrace (α : Type) where
  attemptsMade : Nat
  delays : List Nat
  result : Except (Option ApiError) α

/-- The loop body of `apiCallWithRetry` (src/lib/api.js lines 65-83).
`outcome i` is what the wrapped `apiCall()` does on its i-th invocation
(0-indexed).  `remaining` counts loop iterations still allowed,
`attempt` is the loop counter, `delays` accumulates awaited delays in
reverse, `lastError` is the `lastError` variable. -/
def retryGo {α : Type} (outcome : Nat → Except ApiError α) (initialDelayMs : Nat) :
    Nat → Nat → List Nat → Option ApiError → RetryTrace α
  | 0, attempt, delays, lastError => ⟨attempt, delays.reverse, .error lastError⟩
  | remaining + 1, attempt, delays, _ =>
      match outcome attempt with
      | .ok v => ⟨attempt + 1, delays.reverse, .ok v⟩
      | .error e =>
          if isTransient e then
            -- transient: compute delayMs = initialDelayMs * 2^attempt,
            -- await it, and go round the loop again
            retryGo outcome initialDelayMs remaining (attempt + 1)
              (initialDelayMs * 2 ^ attempt :: delays) (some e)
          else
            -- non-transient: `throw error` out of the loop immediately
            ⟨attempt + 1, delays.reverse, .error (some e)⟩

/-- The wrapper `apiCallWithRetry(apiCall, retryCount, initialDelayMs)`; the source
always uses the defaults `retryCount = 3`, `initialDelayMs = 1000`. -/
def apiCallWithRetry {α : Type} (outcome : Nat → Except ApiError α)
    (retryCount initialDelayMs : Nat) : RetryTrace α :=
  retryGo outcome initialDelayMs retryCount 0 [] none

/-! ## Operations built on the client -/

/-- Response payload of a successful HTTP call, as `response.data`. -/
abbrev RespData := JsVal

/-- Operation `api.getDepartments` (src/lib/api.js lines 113-125): retried call;
`response.data || []` on success, and the catch block substitutes `[]`
for every error. -/
def getDepartments (outcome : Nat → Except ApiError RespData) : JsVal :=
  match (apiCallWithRetry outcome 3 1000).result with
  | .ok data => jsOr data (.arr [])
  | .error _ => .arr []

/-- Operation `api.getUsers` (src/lib/api.js lines 200-212): same structure as
`getDepartments`. -/
def getUsers (outcome : Nat → Except ApiError RespData) : JsVal :=
  match (apiCallWithRetry outcome 3 1000).result with
  | .ok data => jsOr data (.arr [])
  | .error _ => .arr []

/-- Operation `api.checkBackendConnection` (src/lib/api.js lines 88-98): a single
un-retried GET; `true` on success, `false` for every caught error. -/
def checkBackendConnection (outcome : Except ApiError RespData) : Bool :=
  match outcome with
  | .ok _ => true
  | .error _ => false

/-! ## The create/update Objective payload transforms -/

/-- The element access `user.user_id` (also covering the optional
chaining `u?.user_id`: on a non-object it yields `undefined`, as in JS). -/
def userIdOf : JsVal → JsVal
  | .obj fields => getKey fields "user_id"
  | _ => .undefined

/-- The predicate `user => user.is_primary` (JS truthiness of the
`is_primary` property; `false` on a non-object, whose property read
yields `undefined`). -/
def isPrimaryOf : JsVal → Bool
  | .obj fields => truthy (getKey fields "is_primary")
  | _ => false

/-- The mapping `assigned_users.map(user => user.user_id)` — property read on each
element.  (On a truthy non-array the source would throw a `TypeError`;
that case is outside every payload the claims quantify over.) -/
def jsMapUserIds : JsVal → JsVal
  | .arr xs => .arr (xs.map userIdOf)
  | _ => .undefined

/-- The lookup `assigned_users.find(user => user.is_primary)?.user_id`. -/
def jsFindPrimaryUserId : JsVal → JsVal
  | .arr xs =>
      match xs.find? isPrimaryOf with
      | some u => userIdOf u
      | none => .undefined
  | _ => .undefined

/-- The object literal of `api.createOKR` (src/lib/api.js lines 248-258):
`{...okrData, name: okrData.title, assigned_user_ids:
okrData.assigned_user_ids || [], primary_user_id:
okrData.primary_user_id || null, business_unit_ids:
okrData.business_unit_ids || []}`. -/
def createOKRLiteral (okrData : JsObj) : JsObj :=
  setKey
    (setKey
      (setKey
        (setKey okrData "name" (getKey okrData "title"))
        "assigned_user_ids" (jsOr (getKey okrData "assigned_user_ids") (.arr [])))
      "primary_user_id" (jsOr (getKey okrData "primary_user_id") .null))
    "business_unit_ids" (jsOr (getKey okrData "business_unit_ids") (.arr []))

/-- The body of `api.createOKR` (src/lib/api.js lines 245-263) up to the
HTTP call: the object literal above followed by
`if (transformedData.title) delete transformedData.title`. -/
def createOKRTransform (okrData : JsObj) : JsObj :=
  let t := createOKRLiteral okrData
  if truthy (getKey t "title") then delKey t "title" else t

/-- The object literal of `api.updateOKR` (src/lib/api.js lines 284-296):
`{...okrData, assigned_user_ids: okrData.assigned_users ?
okrData.assigned_users.map(user => user.user_id) : [], primary_user_id:
okrData.assigned_users ? okrData.assigned_users.find(user =>
user.is_primary)?.user_id : null, business_unit_ids:
okrData.business_unit_ids || okrData.business_units || []}`. -/
def updateOKRLiteral (okrData : JsObj) : JsObj :=
  setKey
    (setKey
      (setKey okrData "assigned_user_ids"
        (if truthy (getKey okrData "assigned_users")
         then jsMapUserIds (getKey okrData "assigned_users") else .arr []))
      "primary_user_id"
      (if truthy (getKey okrData "assigned_users")
       then jsFindPrimaryUserId (getKey okrData "assigned_users") else .null))
    "business_unit_ids"
    (jsOr (jsOr (getKey okrData "business_unit_ids") (getKey okrData "business_units")) (.arr []))

/-- The body of `api.updateOKR` (src/lib/api.js lines 281-305) up to the
HTTP call: the object literal above followed by the two conditional
deletes `if (transformedData.assigned_users) delete
transformedData.assigned_users` and `if (transformedData.business_units
&& transformedData.business_unit_ids) delete
transformedData.business_units`. -/
def updateOKRTransform (okrData : JsObj) : JsObj :=
  let t1 := updateOKRLiteral okrData
  let t2 := if truthy (getKey t1 "assigned_users") then delKey t1 "assigned_users" else t1
  if truthy (getKey t2 "business_units") && truthy (getKey t2 "business_unit_ids")
    then delKey t2 "business_units" else t2

/-- An `assigned_users` entry `{user_id, is_primary}` as the view layer
builds it. -/
def mkAssignedUser (e : Int × Bool) : JsVal :=
  .obj [("user_id", .num e.1), ("is_primary", .bool e.2)]

/-! ## `localStorage` and the operations touching it -/

/-- Browser `localStorage`: string-keyed string slots. -/
abbrev Storage := List (String × String)

/-- Read `localStorage.getItem(k)`: `null` (here `none`) when the slot is unset. -/
def getItem (s : Storage) (k : String) : Option String :=
  lookupKey s k

/-- Write `localStorage.setItem(k, v)`. -/
def setItem (s : Storage) (k v : String) : Storage :=
  setKey s k v

/-- Delete `localStorage.removeItem(k)`. -/
def removeItem (s : Storage) (k : String) : Storage :=
  delKey s k

/-- Request headers: name/value pairs. -/
abbrev Headers := List (String × String)

/-- The request interceptor (src/lib/api.js lines 18-31): read the
`auth_token` slot; when the value is truthy, set
`config.headers['Authorization'] = 'Bearer ' + token`; then return the
config.  `localStorage` itself is only read. -/
def requestInterceptor (s : Storage) (headers : Headers) : Headers :=
  match getItem s "auth_token" with
  | some token =>
      if token ≠ "" then setKey headers "Authorization" ("Bearer " ++ token) else headers
  | none => headers

/-- Every operation in the sources that touches `localStorage`
(exhaustive over the repository's `localStorage` call sites):
* `apiRequest h` — any `api.*` call dispatching through `apiClient`,
  whose request interceptor reads `auth_token` (src/lib/api.js 18-31);
* `checkAuthRead` — the `checkAuth` effects in the two pages, which call
  `getItem('auth_token')` only;
* `login` — `handleLogin` in both pages:
  `localStorage.setItem('auth_token', 'mock_token')`;
* `logout` — `handleLogout` in `src/components/Header.js`:
  `localStorage.removeItem('auth_token')`. -/
inductive ClientEvent where
  | apiRequest (headers : Headers)
  | checkAuthRead
  | login
  | logout
deriving DecidableEq

/-- Effect of each event on the storage state. The request path computes
its headers from the storage but performs no write, so it leaves the
state unchanged. -/
def eventStep (s : Storage) : ClientEvent → Storage
  | .apiRequest _ => s
  | .checkAuthRead => s
  | .login => setItem s "auth_token" "mock_token"
  | .logout => removeItem s "auth_token"

/-! ## Association-list lemmas -/

section AssocLemmas

variable {β : Type}

theorem lookupKey_setKey_self (o : List (String × β)) (k : String) (v : β) :
    lookupKey (setKey o k v) k = some v := by
  induction o with
  | nil => simp [setKey, lookupKey]
  | cons kv rest ih =>
      by_cases h : kv.1 = k
      · simp [setKey, lookupKey, h]
      · simp [setKey, lookupKey, h, ih]

theorem lookupKey_setKey_ne (o : List (String × β)) (k k' : String) (v : β)
    (h : k' ≠ k) : lookupKey (setKey o k v) k' = lookupKey o k' := by
  have h' : ¬ (k = k') := fun hh => h hh.symm
  induction o with
  | nil => simp [setKey, lookupKey, h']
  | cons kv rest ih =>
      by_cases hk : kv.1 = k
      · subst hk
        simp [setKey, lookupKey, h']
      · by_cases hk' : kv.1 = k'
        · simp [setKey, lookupKey, hk, hk', h]
        · simp [setKey, lookupKey, hk, hk', ih]

theorem lookupKey_delKey_self (o : List (String × β)) (k : String) :
    lookupKey (delKey o k) k = none := by
  induction o with
  | nil => rfl
  | cons kv rest ih =>
      by_cases h : kv.1 = k
      · simpa [delKey, List.filter_cons, h] using ih
      · simpa [delKey, List.filter_cons, h, lookupKey] using ih

theorem lookupKey_delKey_ne (o : List (String × β)) (k k' : String)
    (h : k' ≠ k) : lookupKey (delKey o k) k' = lookupKey o k' := by
  induction o with
  | nil => rfl
  | cons kv rest ih =>
      by_cases hk : kv.1 = k
      · have hk' : ¬ (kv.1 = k') := fun hh => h (hh.symm.trans hk)
        simpa [delKey, List.filter_cons, hk, lookupKey, hk', Ne.symm h] using ih
      · by_cases hk' : kv.1 = k'
        · simp [delKey, List.filter_cons, hk, lookupKey, hk', h]
        · simpa [delKey, List.filter_cons, hk, lookupKey, hk'] using ih

end AssocLemmas

theorem getKey_setKey_self (o : JsObj) (k : String) (v : JsVal) :
    getKey (setKey o k v) k = v := by
  simp [getKey, lookupKey_setKey_self]

theorem getKey_setKey_ne (o : JsObj) (k k' : String) (v : JsVal)
    (h : k' ≠ k) : getKey (setKey o k v) k' = getKey o k' := by
  simp [getKey, lookupKey_setKey_ne o k k' v h]

theorem getKey_delKey_ne (o : JsObj) (k k' : String)
    (h : k' ≠ k) : getKey (delKey o k) k' = getKey o k' := by
  simp [getKey, lookupKey_delKey_ne o k k' h]

theorem hasKey_delKey_self (o : JsObj) (k : String) :
    hasKey (delKey o k) k = false := by
  simp [hasKey, lookupKey_delKey_self]

theorem hasKey_delKey_ne (o : JsObj) (k k' : String)
    (h : k' ≠ k) : hasKey (delKey o k) k' = hasKey o k' := by
  simp [hasKey, lookupKey_delKey_ne o k k' h]

theorem hasKey_setKey_ne (o : JsObj) (k k' : String) (v : JsVal)
    (h : k' ≠ k) : hasKey (setKey o k v) k' = hasKey o k' := by
  simp [hasKey, lookupKey_setKey_ne o k k' v h]

/-! ## Retry behaviour (claims C1, C2) -/

/-- C1 (counterexample): with every attempt failing with a transient
`ERR_NETWORK` error, it is NOT the case that the client waits only
1000ms and 2000ms: the loop also computes and awaits a third delay of
4000ms after the final failed attempt, before the last error is thrown.
(The other two parts of the claim — exactly 3 attempts and the last
error as the final result — do hold.) -/
theorem retry_transient_delays_counterexample :
    ¬ ((apiCallWithRetry (fun _ => (.error .network : Except ApiError Unit)) 3 1000).attemptsMade = 3 ∧
       (apiCallWithRetry (fun _ => (.error .network : Except ApiError Unit)) 3 1000).delays = [1000, 2000] ∧
       (apiCallWithRetry (fun _ => (.error .network : Except ApiError Unit)) 3 1000).result
         = .error (some .network)) :=
  fun h => absurd h.2.1 (by decide)

/-- C1 (amended): when all three attempts fail with transient-classified
errors, the client makes exactly 3 attempts, awaiting 1000ms before the
2nd attempt, 2000ms before the 3rd attempt, AND a further 4000ms after
the 3rd failed attempt before giving up; the final result is the error
observed on the last attempt. -/
theorem retry_transient_exhaustion {α : Type} (outcome : Nat → Except ApiError α)
    (e0 e1 e2 : ApiError)
    (h0 : outcome 0 = .error e0) (h1 : outcome 1 = .error e1) (h2 : outcome 2 = .error e2)
    (t0 : isTransient e0 = true) (t1 : isTransient e1 = true) (t2 : isTransient e2 = true) :
    (apiCallWithRetry outcome 3 1000).attemptsMade = 3 ∧
    (apiCallWithRetry outcome 3 1000).delays = [1000, 2000, 4000] ∧
    (apiCallWithRetry outcome 3 1000).result = .error (some e2) := by
  simp [apiCallWithRetry, retryGo, h0, h1, h2, t0, t1, t2]

/-- Witness for `retry_transient_exhaustion`: alternating network and
timeout failures on the three attempts. -/
theorem retry_transient_exhaustion_witness :
    (apiCallWithRetry (fun i => if i = 1 then (.error .timeout : Except ApiError Unit) else .error .network) 3 1000).attemptsMade = 3 ∧
    (apiCallWithRetry (fun i => if i = 1 then (.error .timeout : Except ApiError Unit) else .error .network) 3 1000).delays = [1000, 2000, 4000] ∧
    (apiCallWithRetry (fun i => if i = 1 then (.error .timeout : Except ApiError Unit) else .error .network) 3 1000).result
      = .error (some .network) :=
  retry_transient_exhaustion _ .network .timeout .network rfl rfl rfl rfl rfl rfl

/-- C2: when the first attempt fails with a non-transient error (any
HTTP error status, or a request-construction error), the client makes
exactly 1 attempt, awaits no delay, and propagates that error as the
final result. -/
theorem retry_nonTransient_single_attempt {α : Type} (outcome : Nat → Except ApiError α)
    (e : ApiError) (h0 : outcome 0 = .error e) (ht : isTransient e = false) :
    (apiCallWithRetry outcome 3 1000).attemptsMade = 1 ∧
    (apiCallWithRetry outcome 3 1000).delays = [] ∧
    (apiCallWithRetry outcome 3 1000).result = .error (some e) := by
  simp [apiCallWithRetry, retryGo, h0, ht]

/-- Witness for `retry_nonTransient_single_attempt`: an HTTP 404. -/
theorem retry_nonTransient_single_attempt_witness :
    (apiCallWithRetry (fun _ => (.error (.httpStatus 404) : Except ApiError Unit)) 3 1000).attemptsMade = 1 ∧
    (apiCallWithRetry (fun _ => (.error (.httpStatus 404) : Except ApiError Unit)) 3 1000).delays = [] ∧
    (apiCallWithRetry (fun _ => (.error (.httpStatus 404) : Except ApiError Unit)) 3 1000).result
      = .error (some (.httpStatus 404)) :=
  retry_nonTransient_single_attempt _ (.httpStatus 404) rfl rfl

/-! ## Empty-list degradation and the connectivity probe (claims C5, C9) -/

/-- C5: whenever the underlying (retried) HTTP call ends in a failure of
any kind, `getDepartments` and `getUsers` return the empty list instead
of propagating the error. -/
theorem listEndpoints_empty_on_failure (outcome : Nat → Except ApiError RespData)
    (err : Option ApiError)
    (h : (apiCallWithRetry outcome 3 1000).result = .error err) :
    getDepartments outcome = .arr [] ∧ getUsers outcome = .arr [] := by
  constructor <;> simp [getDepartments, getUsers, h]

/-- Witness for `listEndpoints_empty_on_failure`: every attempt fails
with a network error. -/
theorem listEndpoints_empty_on_failure_witness :
    getDepartments (fun _ => .error .network) = .arr [] ∧
    getUsers (fun _ => .error .network) = .arr [] :=
  listEndpoints_empty_on_failure (fun _ => .error .network) (some .network) rfl

/-- C9: `checkBackendConnection` is total on every probe outcome — it
returns `true` exactly on success and `false` on every failure, never
propagating an error. -/
theorem checkBackendConnection_total :
    (∀ v : RespData, checkBackendConnection (.ok v) = true) ∧
    (∀ e : ApiError, checkBackendConnection (.error e) = false) :=
  ⟨fun _ => rfl, fun _ => rfl⟩

/-! ## Authorization header (claim C4) -/

/-- C4 (counterexample): with the empty string stored in the
`auth_token` slot a token string IS present in local storage, yet the
interceptor attaches no `Authorization` header, because it tests JS
truthiness (`if (token)`) and `""` is falsy. -/
theorem authHeader_counterexample :
    ¬ (hasKey (requestInterceptor [("auth_token", "")] [("Content-Type", "application/json")])
         "Authorization" = true) := by
  decide

/-- C4 (amended): when a NONEMPTY token string is stored under
`auth_token`, every outgoing request carries the header
`Authorization: Bearer <token>`; when the slot is absent, or holds the
empty string, the headers pass through unchanged and the header is
omitted. -/
theorem authHeader_policy :
    (∀ (s : Storage) (headers : Headers) (t : String),
        getItem s "auth_token" = some t → t ≠ "" →
        lookupKey (requestInterceptor s headers) "Authorization" = some ("Bearer " ++ t)) ∧
    (∀ (s : Storage) (headers : Headers),
        getItem s "auth_token" = none → requestInterceptor s headers = headers) ∧
    (∀ (s : Storage) (headers : Headers),
        getItem s "auth_token" = some "" → requestInterceptor s headers = headers) := by
  refine ⟨?_, ?_, ?_⟩
  · intro s headers t hp hne
    simp [requestInterceptor, hp, hne, lookupKey_setKey_self]
  · intro s headers hp
    simp [requestInterceptor, hp]
  · intro s headers hp
    simp [requestInterceptor, hp]

/-- Witness for `authHeader_policy`: a stored token `"tok"` yields the
bearer header; an empty storage leaves the headers unchanged. -/
theorem authHeader_policy_witness :
    lookupKey (requestInterceptor [("auth_token", "tok")] [("Content-Type", "application/json")])
      "Authorization" = some ("Bearer " ++ "tok") ∧
    requestInterceptor [] [("Content-Type", "application/json")]
      = [("Content-Type", "application/json")] :=
  ⟨authHeader_policy.1 [("auth_token", "tok")] [("Content-Type", "application/json")] "tok"
      rfl (by decide),
   authHeader_policy.2.1 [] [("Content-Type", "application/json")] rfl⟩

/-! ## The auth-token slot is a frame for the request path (claim C8) -/

/-- C8: any sequence of API calls leaves the storage state unchanged;
more generally every storage-touching operation other than `login` and
`logout` is the identity on storage, `login` is the only writer of the
`auth_token` slot, and `logout` is the only operation clearing it. -/
theorem authToken_frame :
    (∀ (s : Storage) (reqs : List Headers),
        List.foldl eventStep s (reqs.map ClientEvent.apiRequest) = s) ∧
    (∀ (s : Storage) (e : ClientEvent), e ≠ .login → e ≠ .logout → eventStep s e = s) ∧
    (∀ s : Storage, getItem (eventStep s .login) "auth_token" = some "mock_token") ∧
    (∀ s : Storage, getItem (eventStep s .logout) "auth_token" = none) := by
  refine ⟨?_, ?_, ?_, ?_⟩
  · intro s reqs
    induction reqs generalizing s with
    | nil => rfl
    | cons h t ih => simpa [eventStep] using ih s
  · intro s e hlogin hlogout
    cases e with
    | apiRequest h => rfl
    | checkAuthRead => rfl
    | login => exact absurd rfl hlogin
    | logout => exact absurd rfl hlogout
  · intro s
    simp [eventStep, getItem, setItem, lookupKey_setKey_self]
  · intro s
    simp [eventStep, getItem, removeItem, lookupKey_delKey_self]

/-- Witness for `authToken_frame`: two concrete API calls leave a
populated storage untouched, and a single API request is the identity on
it. -/
theorem authToken_frame_witness :
    List.foldl eventStep [("auth_token", "tok")]
      ([[("Content-Type", "application/json")], []].map ClientEvent.apiRequest)
      = [("auth_token", "tok")] ∧
    eventStep [("auth_token", "tok")] (.apiRequest []) = [("auth_token", "tok")] ∧
    getItem (eventStep [] .login) "auth_token" = some "mock_token" ∧
    getItem (eventStep [("auth_token", "tok")] .logout) "auth_token" = none :=
  ⟨authToken_frame.1 [("auth_token", "tok")] [[("Content-Type", "application/json")], []],
   authToken_frame.2.1 [("auth_token", "tok")] (.apiRequest [])
     (fun h => ClientEvent.noConfusion h) (fun h => ClientEvent.noConfusion h),
   authToken_frame.2.2.1 [],
   authToken_frame.2.2.2 [("auth_token", "tok")]⟩

/-! ## Lemmas about the payload-transform building blocks -/

theorem jsOr_truthy (a b : JsVal) (h : truthy a = true) : jsOr a b = a := by
  simp [jsOr, h]

theorem jsOr_falsy (a b : JsVal) (h : truthy a = false) : jsOr a b = b := by
  simp [jsOr, h]

theorem userIdOf_mk (e : Int × Bool) : userIdOf (mkAssignedUser e) = .num e.1 := rfl

theorem isPrimaryOf_mk (e : Int × Bool) : isPrimaryOf (mkAssignedUser e) = e.2 := rfl

theorem jsMapUserIds_mk (entries : List (Int × Bool)) :
    jsMapUserIds (.arr (entries.map mkAssignedUser))
      = .arr (entries.map fun e => JsVal.num e.1) := by
  simp [jsMapUserIds, List.map_map, Function.comp_def, userIdOf_mk]

theorem find?_isPrimary_mk (entries : List (Int × Bool)) :
    (entries.map mkAssignedUser).find? isPrimaryOf
      = (entries.find? fun e => e.2).map mkAssignedUser := by
  induction entries with
  | nil => rfl
  | cons e rest ih =>
      cases hb : e.2 <;> simp [List.find?_cons, isPrimaryOf_mk, hb, ih]

theorem jsFindPrimaryUserId_mk (entries : List (Int × Bool)) :
    jsFindPrimaryUserId (.arr (entries.map mkAssignedUser))
      = (match entries.find? (fun e => e.2) with
         | some e => JsVal.num e.1
         | none => JsVal.undefined) := by
  simp only [jsFindPrimaryUserId, find?_isPrimary_mk]
  cases entries.find? (fun e => e.2) with
  | none => rfl
  | some e => simp [userIdOf_mk]

theorem getKey_updateOKRLiteral_assigned_user_ids (p : JsObj) :
    getKey (updateOKRLiteral p) "assigned_user_ids"
      = (if truthy (getKey p "assigned_users")
         then jsMapUserIds (getKey p "assigned_users") else .arr []) := by
  simp [updateOKRLiteral, getKey_setKey_self, getKey_setKey_ne]

theorem getKey_updateOKRLiteral_primary (p : JsObj) :
    getKey (updateOKRLiteral p) "primary_user_id"
      = (if truthy (getKey p "assigned_users")
         then jsFindPrimaryUserId (getKey p "assigned_users") else .null) := by
  simp [updateOKRLiteral, getKey_setKey_self, getKey_setKey_ne]

theorem getKey_updateOKRLiteral_bu (p : JsObj) :
    getKey (updateOKRLiteral p) "business_unit_ids"
      = jsOr (jsOr (getKey p "business_unit_ids") (getKey p "business_units")) (.arr []) := by
  simp [updateOKRLiteral, getKey_setKey_self]

theorem getKey_updateOKRLiteral_other (p : JsObj) (k : String)
    (h1 : k ≠ "assigned_user_ids") (h2 : k ≠ "primary_user_id")
    (h3 : k ≠ "business_unit_ids") :
    getKey (updateOKRLiteral p) k = getKey p k := by
  simp [updateOKRLiteral, getKey_setKey_ne, h1, h2, h3]

theorem getKey_updateOKRTransform_stable (p : JsObj) (k : String)
    (h1 : k ≠ "assigned_users") (h2 : k ≠ "business_units") :
    getKey (updateOKRTransform p) k = getKey (updateOKRLiteral p) k := by
  simp only [updateOKRTransform]
  split
  · split
    · rw [getKey_delKey_ne _ _ _ h2, getKey_delKey_ne _ _ _ h1]
    · rw [getKey_delKey_ne _ _ _ h1]
  · split
    · rw [getKey_delKey_ne _ _ _ h2]
    · rfl

theorem updateOKR_strips_businessUnits (p : JsObj)
    (hbus : truthy (getKey p "business_units") = true)
    (hb : truthy (jsOr (jsOr (getKey p "business_unit_ids") (getKey p "business_units"))
            (JsVal.arr [])) = true) :
    hasKey (updateOKRTransform p) "business_units" = false := by
  have h1 : getKey (updateOKRLiteral p) "business_units" = getKey p "business_units" :=
    getKey_updateOKRLiteral_other p _ (by decide) (by decide) (by decide)
  have h2 : getKey (updateOKRLiteral p) "business_unit_ids"
      = jsOr (jsOr (getKey p "business_unit_ids") (getKey p "business_units")) (JsVal.arr []) :=
    getKey_updateOKRLiteral_bu p
  simp only [updateOKRTransform]
  by_cases hA : truthy (getKey (updateOKRLiteral p) "assigned_users") = true
  · have hcond : (truthy (getKey (delKey (updateOKRLiteral p) "assigned_users") "business_units")
        && truthy (getKey (delKey (updateOKRLiteral p) "assigned_users") "business_unit_ids"))
          = true := by
      rw [getKey_delKey_ne _ _ _ (by decide : ("business_units" : String) ≠ "assigned_users"),
          getKey_delKey_ne _ _ _ (by decide : ("business_unit_ids" : String) ≠ "assigned_users"),
          h1, h2, hbus, hb]
      rfl
    rw [if_pos hA, if_pos hcond]
    exact hasKey_delKey_self _ _
  · have hcond : (truthy (getKey (updateOKRLiteral p) "business_units")
        && truthy (getKey (updateOKRLiteral p) "business_unit_ids")) = true := by
      rw [h1, h2, hbus, hb]
      rfl
    rw [if_neg hA, if_pos hcond]
    exact hasKey_delKey_self _ _

theorem getKey_createOKRLiteral_name (p : JsObj) :
    getKey (createOKRLiteral p) "name" = getKey p "title" := by
  simp [createOKRLiteral, getKey_setKey_self, getKey_setKey_ne]

theorem getKey_createOKRLiteral_other (p : JsObj) (k : String)
    (h1 : k ≠ "name") (h2 : k ≠ "assigned_user_ids") (h3 : k ≠ "primary_user_id")
    (h4 : k ≠ "business_unit_ids") :
    getKey (createOKRLiteral p) k = getKey p k := by
  simp [createOKRLiteral, getKey_setKey_ne, h1, h2, h3, h4]

theorem hasKey_createOKRLiteral_other (p : JsObj) (k : String)
    (h1 : k ≠ "name") (h2 : k ≠ "assigned_user_ids") (h3 : k ≠ "primary_user_id")
    (h4 : k ≠ "business_unit_ids") :
    hasKey (createOKRLiteral p) k = hasKey p k := by
  simp [createOKRLiteral, hasKey_setKey_ne, h1, h2, h3, h4]

/-! ## The assigned-users transform (claim C3) -/

/-- C3 (counterexample): `createOKR` does NOT perform the
`assigned_users` split.  On the payload
`{assigned_users: [{user_id: 1, is_primary: true}]}` its outgoing
payload has `assigned_user_ids = []` (it reads a non-existent
`okrData.assigned_user_ids`), `primary_user_id = null`, and it RETAINS
the `assigned_users` key, contradicting the claim's "no assigned_users
key" for the create operation. -/
theorem createOKR_assignedUsers_counterexample :
    ¬ (getKey (createOKRTransform [("assigned_users", .arr [mkAssignedUser (1, true)])])
         "assigned_user_ids" = .arr [.num 1] ∧
       getKey (createOKRTransform [("assigned_users", .arr [mkAssignedUser (1, true)])])
         "primary_user_id" = .num 1 ∧
       wireHas (createOKRTransform [("assigned_users", .arr [mkAssignedUser (1, true)])])
         "assigned_users" = false) :=
  fun h => absurd h.2.2 (by decide)

/-- C3 (amended): only the UPDATE-Objective operation performs the
`assigned_users` transform.  For every update payload whose
`assigned_users` is a list of `{user_id, is_primary}` entries, the
outgoing payload has `assigned_user_ids` equal to the list of
`user_id`s, `primary_user_id` equal to the `user_id` of the first entry
whose `is_primary` is true (absent from the serialized payload when no
such entry exists), and no `assigned_users` key.  (`createOKR` instead
reads `assigned_user_ids` / `primary_user_id` directly and leaves an
input `assigned_users` key untouched.) -/
theorem updateOKR_assignedUsers_transform (p : JsObj) (entries : List (Int × Bool))
    (hau : getKey p "assigned_users" = .arr (entries.map mkAssignedUser)) :
    getKey (updateOKRTransform p) "assigned_user_ids"
      = .arr (entries.map fun e => JsVal.num e.1) ∧
    (∀ e : Int × Bool, entries.find? (fun x => x.2) = some e →
        getKey (updateOKRTransform p) "primary_user_id" = .num e.1) ∧
    (entries.find? (fun x => x.2) = none →
        wireHas (updateOKRTransform p) "primary_user_id" = false) ∧
    hasKey (updateOKRTransform p) "assigned_users" = false := by
  have htr : truthy (getKey p "assigned_users") = true := by rw [hau]; rfl
  have hstable1 : getKey (updateOKRTransform p) "assigned_user_ids"
      = getKey (updateOKRLiteral p) "assigned_user_ids" :=
    getKey_updateOKRTransform_stable p _ (by decide) (by decide)
  have hstable2 : getKey (updateOKRTransform p) "primary_user_id"
      = getKey (updateOKRLiteral p) "primary_user_id" :=
    getKey_updateOKRTransform_stable p _ (by decide) (by decide)
  have hids : getKey (updateOKRLiteral p) "assigned_user_ids"
      = .arr (entries.map fun e => JsVal.num e.1) := by
    rw [getKey_updateOKRLiteral_assigned_user_ids, hau]
    simp [truthy, jsMapUserIds_mk]
  have hprim : getKey (updateOKRLiteral p) "primary_user_id"
      = (match entries.find? (fun e => e.2) with
         | some e => JsVal.num e.1
         | none => JsVal.undefined) := by
    rw [getKey_updateOKRLiteral_primary, hau]
    simp [truthy, jsFindPrimaryUserId_mk]
  have hlit_au : getKey (updateOKRLiteral p) "assigned_users"
      = .arr (entries.map mkAssignedUser) := by
    rw [getKey_updateOKRLiteral_other p _ (by decide) (by decide) (by decide), hau]
  have hdel : hasKey (updateOKRTransform p) "assigned_users" = false := by
    have hA : truthy (getKey (updateOKRLiteral p) "assigned_users") = true := by
      rw [hlit_au]; rfl
    simp only [updateOKRTransform]
    rw [if_pos hA]
    split
    · rw [hasKey_delKey_ne _ _ _ (by decide)]
      exact hasKey_delKey_self _ _
    · exact hasKey_delKey_self _ _
  refine ⟨hstable1.trans hids, ?_, ?_, hdel⟩
  · intro e hfind
    rw [hstable2, hprim, hfind]
  · intro hfind
    simp [wireHas, hstable2, hprim, hfind]

/-- Witness for `updateOKR_assignedUsers_transform`: the spec's own test
payload `assigned_users = [{user_id: 1, is_primary: true}, {user_id: 2,
is_primary: false}]`. -/
theorem updateOKR_assignedUsers_transform_witness :
    getKey (updateOKRTransform
        [("assigned_users", .arr [mkAssignedUser (1, true), mkAssignedUser (2, false)])])
      "assigned_user_ids" = .arr [.num 1, .num 2] ∧
    getKey (updateOKRTransform
        [("assigned_users", .arr [mkAssignedUser (1, true), mkAssignedUser (2, false)])])
      "primary_user_id" = .num 1 ∧
    hasKey (updateOKRTransform
        [("assigned_users", .arr [mkAssignedUser (1, true), mkAssignedUser (2, false)])])
      "assigned_users" = false :=
  ⟨(updateOKR_assignedUsers_transform
      [("assigned_users", .arr [mkAssignedUser (1, true), mkAssignedUser (2, false)])]
      [(1, true), (2, false)] rfl).1,
   (updateOKR_assignedUsers_transform
      [("assigned_users", .arr [mkAssignedUser (1, true), mkAssignedUser (2, false)])]
      [(1, true), (2, false)] rfl).2.1 (1, true) rfl,
   (updateOKR_assignedUsers_transform
      [("assigned_users", .arr [mkAssignedUser (1, true), mkAssignedUser (2, false)])]
      [(1, true), (2, false)] rfl).2.2.2⟩

/-! ## The business-units fallback (claim C6) -/

/-- C6 (counterexample): `createOKR` has NO `business_units` fallback.
On the payload `{business_units: [1]}` (no `business_unit_ids`) its
outgoing payload has `business_unit_ids = []` rather than `[1]`, and it
retains the `business_units` key rather than stripping it. -/
theorem createOKR_businessUnits_counterexample :
    ¬ (getKey (createOKRTransform [("business_units", .arr [.num 1])])
         "business_unit_ids" = .arr [.num 1] ∧
       wireHas (createOKRTransform [("business_units", .arr [.num 1])])
         "business_units" = false) :=
  fun h => absurd h.2 (by decide)

/-- C6 (amended): only the UPDATE-Objective operation accepts
`business_units` as a fallback.  For every update payload: when
`business_unit_ids` is absent and `business_units` is a list, the list
becomes the outgoing `business_unit_ids` and `business_units` is
stripped; and when both fields are present and truthy, the sent
`business_unit_ids` is kept and the redundant `business_units` is
stripped.  (`createOKR` always sends `okrData.business_unit_ids || []`
and never strips `business_units`.) -/
theorem updateOKR_businessUnits_fallback (p : JsObj) :
    (∀ xs : List JsVal, getKey p "business_unit_ids" = .undefined →
        getKey p "business_units" = .arr xs →
        getKey (updateOKRTransform p) "business_unit_ids" = .arr xs ∧
        hasKey (updateOKRTransform p) "business_units" = false) ∧
    (truthy (getKey p "business_unit_ids") = true →
        truthy (getKey p "business_units") = true →
        getKey (updateOKRTransform p) "business_unit_ids" = getKey p "business_unit_ids" ∧
        hasKey (updateOKRTransform p) "business_units" = false) := by
  constructor
  · intro xs hbid hbus
    have hv : jsOr (jsOr (getKey p "business_unit_ids") (getKey p "business_units"))
        (JsVal.arr []) = .arr xs := by
      rw [hbid, hbus]; rfl
    constructor
    · rw [getKey_updateOKRTransform_stable p _ (by decide) (by decide),
          getKey_updateOKRLiteral_bu, hv]
    · exact updateOKR_strips_businessUnits p (by rw [hbus]; rfl) (by rw [hv]; rfl)
  · intro hbid hbus
    have hv : jsOr (jsOr (getKey p "business_unit_ids") (getKey p "business_units"))
        (JsVal.arr []) = getKey p "business_unit_ids" := by
      rw [jsOr_truthy _ _ hbid, jsOr_truthy _ _ hbid]
    constructor
    · rw [getKey_updateOKRTransform_stable p _ (by decide) (by decide),
          getKey_updateOKRLiteral_bu, hv]
    · exact updateOKR_strips_businessUnits p hbus (by rw [hv]; exact hbid)

/-- Witness for `updateOKR_businessUnits_fallback`: the fallback on
`{business_units: [5]}`, and the stripping when both fields are sent. -/
theorem updateOKR_businessUnits_fallback_witness :
    (getKey (updateOKRTransform [("business_units", .arr [.num 5])])
       "business_unit_ids" = .arr [.num 5] ∧
     hasKey (updateOKRTransform [("business_units", .arr [.num 5])])
       "business_units" = false) ∧
    (getKey (updateOKRTransform
        [("business_unit_ids", .arr [.num 7]), ("business_units", .arr [.num 5])])
       "business_unit_ids" = .arr [.num 7] ∧
     hasKey (updateOKRTransform
        [("business_unit_ids", .arr [.num 7]), ("business_units", .arr [.num 5])])
       "business_units" = false) :=
  ⟨(updateOKR_businessUnits_fallback [("business_units", .arr [.num 5])]).1
      [.num 5] rfl rfl,
   (updateOKR_businessUnits_fallback
      [("business_unit_ids", .arr [.num 7]), ("business_units", .arr [.num 5])]).2
      rfl rfl⟩

/-! ## The title → name rename (claims C7, C10) -/

/-- C7 (counterexample): on the create payload `{title: ""}` (a present
`title` field, no `name` field) the outgoing payload RETAINS the `title`
key — the source deletes `title` only when it is truthy — contradicting
the claim's "contains no title key". -/
theorem createOKR_titleRename_counterexample :
    ¬ (getKey (createOKRTransform [("title", .str "")]) "name" = .str "" ∧
       wireHas (createOKRTransform [("title", .str "")]) "title" = false) :=
  fun h => absurd h.2 (by decide)

/-- C7 (amended): for every create-Objective payload whose `title` field
is TRUTHY and which has no `name` field, the outgoing payload has `name`
equal to that title value and contains no `title` key. -/
theorem createOKR_title_rename (p : JsObj)
    (ht : truthy (getKey p "title") = true) (_hn : hasKey p "name" = false) :
    getKey (createOKRTransform p) "name" = getKey p "title" ∧
    hasKey (createOKRTransform p) "title" = false := by
  have htitle : getKey (createOKRLiteral p) "title" = getKey p "title" :=
    getKey_createOKRLiteral_other p _ (by decide) (by decide) (by decide) (by decide)
  have hcond : truthy (getKey (createOKRLiteral p) "title") = true := by
    rw [htitle]; exact ht
  constructor
  · simp only [createOKRTransform]
    rw [if_pos hcond, getKey_delKey_ne _ _ _ (by decide), getKey_createOKRLiteral_name]
  · simp only [createOKRTransform]
    rw [if_pos hcond]
    exact hasKey_delKey_self _ _

/-- Witness for `createOKR_title_rename`: the spec's own example
`{title: "Grow revenue"}`. -/
theorem createOKR_title_rename_witness :
    getKey (createOKRTransform [("title", .str "Grow revenue")]) "name"
      = .str "Grow revenue" ∧
    hasKey (createOKRTransform [("title", .str "Grow revenue")]) "title" = false :=
  createOKR_title_rename [("title", .str "Grow revenue")] (by decide) rfl

/-- C10: for every create-Objective payload whose `title` field is
present but falsy, the outgoing payload retains the `title` key with
that falsy value, alongside `name` set to the same value; `title` is
removed only when truthy. -/
theorem createOKR_falsy_title_retained (p : JsObj)
    (hk : hasKey p "title" = true) (ht : truthy (getKey p "title") = false) :
    getKey (createOKRTransform p) "title" = getKey p "title" ∧
    getKey (createOKRTransform p) "name" = getKey p "title" ∧
    hasKey (createOKRTransform p) "title" = true := by
  have htitle : getKey (createOKRLiteral p) "title" = getKey p "title" :=
    getKey_createOKRLiteral_other p _ (by decide) (by decide) (by decide) (by decide)
  have hcond : ¬ (truthy (getKey (createOKRLiteral p) "title") = true) := by
    rw [htitle, ht]; exact Bool.false_ne_true
  refine ⟨?_, ?_, ?_⟩
  · simp only [createOKRTransform]
    rw [if_neg hcond, htitle]
  · simp only [createOKRTransform]
    rw [if_neg hcond, getKey_createOKRLiteral_name]
  · simp only [createOKRTransform]
    rw [if_neg hcond,
        hasKey_createOKRLiteral_other p _ (by decide) (by decide) (by decide) (by decide)]
    exact hk

/-- Witness for `createOKR_falsy_title_retained`: the empty-string
title. -/
theorem createOKR_falsy_title_retained_witness :
    getKey (createOKRTransform [("title", .str "")]) "title" = .str "" ∧
    getKey (createOKRTransform [("title", .str "")]) "name" = .str "" ∧
    hasKey (createOKRTransform [("title", .str "")]) "title" = true :=
  createOKR_falsy_title_retained [("title", .str "")] rfl rfl

end TorTechHR
